import Mathlib

/-
Verification of the sky_chimp newsletter service against its specification.

The Django application is embedded shallowly: database tables become lists of
records, the ORM `save`/`get`/`filter` calls become list operations, the
scheduler job store becomes a list of newsletter ids, the mail transport
becomes a boolean oracle, and each view handler becomes a pure state
transformer.  `app_newsletter/services.py` and `app_newsletter/models.py` are
not present in the source tree; the delivery-service operations they define
(`create_task`, `delete_task`, `send_mail_to_client`, `ActiveNewsletterMixin`)
are modelled from the specification, as marked on their doc comments.
-/

namespace SkyChimp

/-- Frequency choices of a Newsletter (one-shot, daily, weekly, monthly). -/
inductive Frequency where
  | oneShot
  | daily
  | weekly
  | monthly
deriving DecidableEq, Repr

/-- User record (app_user.CustomUser), restricted to the fields the access
checks read: primary key, `is_staff`, `is_superuser`. -/
structure User where
  id : Nat
  is_staff : Bool
  is_superuser : Bool
deriving DecidableEq, Repr

/-- Client record (app_client/models.py): email, names, and the owning
user's primary key (`created_by`). -/
structure Client where
  id : Nat
  email : String
  first_name : String
  last_name : String
  created_by : Nat
deriving DecidableEq, Repr

/-- Newsletter record (app_newsletter.models.Newsletter; the module is absent
from the tree, fields follow spec section 3 and their use in views.py and
forms.py).  Dates and times are day/second ordinals; `status` is the stored
status character, `C` for Created and `S` for Scheduled. -/
structure Newsletter where
  id : Nat
  time : Nat
  finish_date : Option Nat
  finish_time : Option Nat
  frequency : Frequency
  status : Char
  is_active : Bool
  created_by : Nat
  clients : List Nat
  messages : List Nat
deriving DecidableEq, Repr

/-- NewsletterLog record: timestamp, outcome (`true` = success), and the
parent newsletter's primary key. -/
structure NewsletterLog where
  date_time : Nat
  status : Bool
  newsletter : Nat
deriving DecidableEq, Repr

/-- Whole persistent state: the newsletter table, the log table, the client
table, and the external scheduler's job store (newsletter ids that currently
have a registered job). -/
structure SystemState where
  newsletters : List Newsletter
  logs : List NewsletterLog
  clients : List Client
  jobs : List Nat
deriving DecidableEq, Repr

/-- ORM `save()` on a Newsletter instance: update the row with the same
primary key, or insert the row if none exists. -/
def saveNewsletter (nl : Newsletter) : List Newsletter → List Newsletter
  | [] => [nl]
  | n :: rest => if n.id == nl.id then nl :: rest else n :: saveNewsletter nl rest

/-- ORM `Newsletter.objects.get(pk=...)`: the row with the given primary key,
or `none` (`Newsletter.DoesNotExist`). -/
def getNewsletter (db : List Newsletter) (pk : Nat) : Option Newsletter :=
  db.find? (fun n => n.id == pk)

theorem getNewsletter_save (nl : Newsletter) (db : List Newsletter) :
    getNewsletter (saveNewsletter nl db) nl.id = some nl := by
  induction db with
  | nil => simp [saveNewsletter, getNewsletter]
  | cons n rest ih =>
    by_cases h : n.id == nl.id
    · simp [saveNewsletter, getNewsletter, h]
    · simp only [saveNewsletter, h, if_false]
      simpa [getNewsletter, h] using ih

theorem getNewsletter_id {db : List Newsletter} {pk : Nat} {nl : Newsletter}
    (h : getNewsletter db pk = some nl) : nl.id = pk := by
  have := List.find?_some h
  simpa using this

/-- Boolean error test on `Except`, mirroring whether Django form cleaning
raised a `ValidationError`. -/
def exceptIsError {ε α : Type} : Except ε α → Bool
  | .error _ => true
  | .ok _ => false

/-- Modelled from the spec: `NewsletterDeliveryService.create_task`
(app_newsletter/services.py is absent from the tree) registers a job keyed by
the newsletter's identifier with the external scheduler; idempotent in effect
after `delete_task`, never producing duplicate jobs. -/
def create_task (pk : Nat) (jobs : List Nat) : List Nat :=
  if pk ∈ jobs then jobs else jobs ++ [pk]

/-- Modelled from the spec: `NewsletterDeliveryService.delete_task` removes
any job registered under the newsletter's key; a no-op, not an error, if no
such job exists. -/
def delete_task (pk : Nat) (jobs : List Nat) : List Nat :=
  jobs.filter (fun j => j != pk)

/-- Modelled from the spec: the individual send attempts made by
`send_mail_to_client`, one per (client, message) pair; `transport` is the
outbound-mail collaborator, returning `true` when a send succeeds.  Every
pair is attempted: a failure for one recipient does not remove later pairs
from the list. -/
def sendAttempts (nl : Newsletter) (transport : Nat → Nat → Bool) : List Bool :=
  nl.clients.flatMap (fun c => nl.messages.map (fun m => transport c m))

/-- Modelled from the spec: `NewsletterDeliveryService.send_mail_to_client`
sends every message in the set to every client, then appends exactly one
NewsletterLog row whose status is success exactly when no individual send
failed. -/
def send_mail_to_client (nl : Newsletter) (transport : Nat → Nat → Bool)
    (now : Nat) (logs : List NewsletterLog) : List NewsletterLog :=
  logs ++ [⟨now, (sendAttempts nl transport).all (fun b => b), nl.id⟩]

/-- Trace of NewsletterCreateView.form_valid: the instance as first saved,
the state right after that first save, and the state at the end of the
request. -/
structure CreateTrace where
  firstSaved : Newsletter
  afterFirstSave : SystemState
  final : SystemState
deriving DecidableEq, Repr

/-- NewsletterCreateView.form_valid (app_newsletter/views.py lines 43-64):
save the newsletter with `created_by` set and status `C`, register the
delivery job via `create_task`, then set status `S` and save again. -/
def newsletterCreateFormValid (formData : Newsletter) (user : Nat)
    (st : SystemState) : CreateTrace :=
  let n1 := { formData with created_by := user, status := 'C' }
  let st1 := { st with newsletters := saveNewsletter n1 st.newsletters }
  let st2 := { st1 with jobs := create_task n1.id st1.jobs }
  let n2 := { n1 with status := 'S' }
  let st3 := { st2 with newsletters := saveNewsletter n2 st2.newsletters }
  ⟨n1, st1, st3⟩

/-- Modelled from the spec: ActiveNewsletterMixin (defined in the absent
app_newsletter/services.py) permits dispatch to the update and delete views
only while the newsletter is active. -/
def activeNewsletterGate (nl : Newsletter) : Bool := nl.is_active

/-- NewsletterUpdateView.form_valid (app_newsletter/views.py lines 117-135):
save the edited newsletter, delete the old delivery job, create a new one,
then force status `S` and save again. -/
def newsletterUpdateFormValid (updated : Newsletter) (st : SystemState) :
    SystemState :=
  let st1 := { st with newsletters := saveNewsletter updated st.newsletters }
  let st2 := { st1 with jobs := create_task updated.id (delete_task updated.id st1.jobs) }
  { st2 with newsletters := saveNewsletter { updated with status := 'S' } st2.newsletters }

/-- Update request for the newsletter edited into `updated`: the
ActiveNewsletterMixin gate runs before the view body; the Bool records
whether form_valid was reached. -/
def newsletterUpdateDispatch (updated : Newsletter) (st : SystemState) :
    Bool × SystemState :=
  match getNewsletter st.newsletters updated.id with
  | none => (false, st)
  | some current =>
      if activeNewsletterGate current then (true, newsletterUpdateFormValid updated st)
      else (false, st)

/-- NewsletterDeleteView.form_valid (app_newsletter/views.py lines 160-179):
fetch the object, delete its delivery job, set `is_active` to false and save;
nothing is removed from the newsletter table. -/
def newsletterDeleteFormValid (pk : Nat) (st : SystemState) : SystemState :=
  match getNewsletter st.newsletters pk with
  | none => st
  | some nl =>
      { st with jobs := delete_task pk st.jobs,
                newsletters := saveNewsletter { nl with is_active := false } st.newsletters }

/-- Delete ("disable") request: the ActiveNewsletterMixin gate runs before
the view body; the Bool records whether form_valid was reached. -/
def newsletterDeleteDispatch (pk : Nat) (st : SystemState) :
    Bool × SystemState :=
  match getNewsletter st.newsletters pk with
  | none => (false, st)
  | some nl =>
      if activeNewsletterGate nl then (true, newsletterDeleteFormValid pk st)
      else (false, st)

/-- Success line written by the sendnewsletter command after a send
(management/commands/sendnewsletter.py line 35). -/
def successLine (i : Nat) : String :=
  "Successfully sent newsletter " ++ toString i

/-- Message of the CommandError raised when an id has no Newsletter row
(sendnewsletter.py line 37). -/
def missingLine (i : Nat) : String :=
  "Newsletter \"" ++ toString i ++ "\" does not exist"

/-- Command.handle of the sendnewsletter command (sendnewsletter.py lines
22-37): the given ids are processed in order; for each, the newsletter is
fetched and send_mail_to_client invoked, then a success line is written; a
missing id raises a CommandError naming it, which aborts the loop.  Returns
the success lines written, the log table after the run, and the raised
error message, if any. -/
def sendnewsletterHandle (st : SystemState) (transport : Nat → Nat → Bool)
    (now : Nat) :
    List NewsletterLog → List Nat → List String × List NewsletterLog × Option String
  | logs, [] => ([], logs, none)
  | logs, i :: rest =>
    match getNewsletter st.newsletters i with
    | some nl =>
        let r := sendnewsletterHandle st transport now
          (send_mail_to_client nl transport now logs) rest
        (successLine i :: r.1, r.2)
    | none => ([], logs, some (missingLine i))

/-- Cache entry of the generic cache backend: key, stored number, and the
absolute time at which the entry expires. -/
structure CacheEntry where
  key : String
  value : Nat
  expires : Nat
deriving DecidableEq, Repr

/-- Cache read: the stored value under the key, provided its TTL has not yet
expired at the current time. -/
def cacheGet (c : List CacheEntry) (k : String) (now : Nat) : Option Nat :=
  match c.find? (fun e => e.key == k) with
  | some e => if now < e.expires then some e.value else none
  | none => none

/-- Cache write with a TTL in seconds. -/
def cacheSet (c : List CacheEntry) (k : String) (v ttl now : Nat) : List CacheEntry :=
  ⟨k, v, now + ttl⟩ :: c.filter (fun e => e.key != k)

/-- Fixed cache key used by get_total_newsletter (app_main/services.py). -/
def total_newsletter_key : String := "total_newsletter"

/-- Fixed cache key used by get_active_newsletters (app_main/services.py). -/
def active_newsletters_key : String := "active_newsletters"

/-- Fixed cache key used by get_unique_clients (app_main/services.py). -/
def unique_clients_key : String := "unique_clients"

/-- ORM count `Newsletter.objects.count()`. -/
def totalNewsletterCount (st : SystemState) : Nat := st.newsletters.length

/-- ORM count `Newsletter.objects.filter(is_active=True).count()`. -/
def activeNewsletterCount (st : SystemState) : Nat :=
  (st.newsletters.filter (fun n => n.is_active)).length

/-- ORM count `Client.objects.values('email').distinct().count()`. -/
def uniqueClientCount (st : SystemState) : Nat :=
  ((st.clients.map (fun c => c.email)).dedup).length

/-- MainPageDataCachingServices.get_total_newsletter (app_main/services.py
lines 27-45): with the global caching flag on, read through the cache under
the fixed key with TTL 10; on a miss, recount and write; with the flag off,
always recount. -/
def get_total_newsletter (cacheEnabled : Bool) (st : SystemState)
    (cache : List CacheEntry) (now : Nat) : Nat × List CacheEntry :=
  if cacheEnabled then
    match cacheGet cache total_newsletter_key now with
    | some v => (v, cache)
    | none =>
        (totalNewsletterCount st,
         cacheSet cache total_newsletter_key (totalNewsletterCount st) 10 now)
  else (totalNewsletterCount st, cache)

/-- MainPageDataCachingServices.get_active_newsletters (app_main/services.py
lines 47-61): same read-through pattern with TTL 120. -/
def get_active_newsletters (cacheEnabled : Bool) (st : SystemState)
    (cache : List CacheEntry) (now : Nat) : Nat × List CacheEntry :=
  if cacheEnabled then
    match cacheGet cache active_newsletters_key now with
    | some v => (v, cache)
    | none =>
        (activeNewsletterCount st,
         cacheSet cache active_newsletters_key (activeNewsletterCount st) 120 now)
  else (activeNewsletterCount st, cache)

/-- MainPageDataCachingServices.get_unique_clients (app_main/services.py
lines 63-77): same read-through pattern with TTL 180. -/
def get_unique_clients (cacheEnabled : Bool) (st : SystemState)
    (cache : List CacheEntry) (now : Nat) : Nat × List CacheEntry :=
  if cacheEnabled then
    match cacheGet cache unique_clients_key now with
    | some v => (v, cache)
    | none =>
        (uniqueClientCount st,
         cacheSet cache unique_clients_key (uniqueClientCount st) 180 now)
  else (uniqueClientCount st, cache)

/-- IndexPageView.get_context_data (app_main/views.py lines 13-22): the three
counters shown on the main page are computed directly with ORM queries; the
view takes no cache, no clock and no caching flag, and never consults
MainPageDataCachingServices. -/
def indexPageCounters (st : SystemState) : Nat × Nat × Nat :=
  (totalNewsletterCount st, activeNewsletterCount st, uniqueClientCount st)

/-- Outcome of a mixin's dispatch: `proceed` means the wrapped view body
executes, `redirectHome` means the request is redirected to the main page
and the wrapped operation never runs. -/
inductive DispatchOutcome where
  | proceed
  | redirectHome
deriving DecidableEq, Repr

/-- CombinedAccessMixin.check_access (permissions/user_permission.py lines
77-83): the object's creator, staff, or a superuser. -/
def check_access (u : User) (objCreator : Nat) : Bool :=
  objCreator == u.id || u.is_staff || u.is_superuser

/-- CombinedAccessMixin.dispatch (permissions/user_permission.py lines
85-99): redirect to the main page unless check_access holds. -/
def combinedDispatch (u : User) (objCreator : Nat) : DispatchOutcome :=
  if check_access u objCreator then .proceed else .redirectHome

/-- NewsletterLogAccessMixin.dispatch (permissions/user_permission.py lines
109-117): fetch the log's parent newsletter through its foreign key and
redirect home unless the current user created it or is staff or superuser.
The `none` branch is unreachable in the application, where the foreign key
always resolves. -/
def newsletterLogDispatch (u : User) (log : NewsletterLog)
    (db : List Newsletter) : DispatchOutcome :=
  match getNewsletter db log.newsletter with
  | some nl =>
      if nl.created_by != u.id && !u.is_staff && !u.is_superuser then
        .redirectHome
      else .proceed
  | none => .redirectHome

theorem mem_delete_task (pk : Nat) (jobs : List Nat) : pk ∉ delete_task pk jobs := by
  simp [delete_task]

theorem count_create_after_delete (pk : Nat) (jobs : List Nat) :
    (create_task pk (delete_task pk jobs)).count pk = 1 := by
  have hmem : pk ∉ delete_task pk jobs := mem_delete_task pk jobs
  rw [create_task, if_neg hmem]
  simp [List.count_append, List.count_eq_zero.mpr hmem]

/-- NewsletterCreateForm.clean_finish_date (app_newsletter/forms.py lines
42-53): if a finish date was supplied and it is not strictly after the
current date, raise a field ValidationError; otherwise return the value. -/
def clean_finish_date (finish_date : Option Nat) (today : Nat) :
    Except String (Option Nat) :=
  match finish_date with
  | none => .ok none
  | some d =>
      if d ≤ today then .error "Дата завершения должна быть больше текущей даты"
      else .ok (some d)

/-- Newsletter creation request pipeline: Django runs field cleaning first
and calls form_valid only when cleaning raised no ValidationError; an invalid
form re-renders without touching any state. -/
def newsletterCreateRequest (formData : Newsletter) (user today : Nat)
    (st : SystemState) : SystemState :=
  match clean_finish_date formData.finish_date today with
  | .error _ => st
  | .ok _ => (newsletterCreateFormValid formData user st).final

/-- ClientCreateForm.clean_email (app_client/forms.py lines 34-44): when the
form was built with a user, reject the email if that same user already has a
Client with this email; with no user the check is skipped entirely. -/
def clean_email (user : Option Nat) (email : String) (db : List Client) :
    Except String String :=
  match user with
  | some u =>
      if db.any (fun c => c.created_by == u && c.email == email) then
        .error "Вы уже создавали клиента с таким email"
      else .ok email
  | none => .ok email

/-- ClientUpdateView (app_client/views.py lines 82-101) does not override
`get_form_kwargs`, so no `user` kwarg reaches ClientCreateForm and the form's
`user` attribute defaults to `None`. -/
def clientUpdateViewFormUser : Option Nat := none

/-- C5: NewsletterCreateForm validation of finish_date errors exactly when a
finish date is supplied and is on or before the current date; a later or
absent finish date is accepted; and a creation request whose finish_date is
rejected leaves the whole system state unchanged. -/
theorem C5_clean_finish_date (fd : Option Nat) (today : Nat) :
    (exceptIsError (clean_finish_date fd today) = true ↔
      ∃ d, fd = some d ∧ d ≤ today) ∧
    (∀ formData : Newsletter, ∀ user : Nat, ∀ st : SystemState,
      exceptIsError (clean_finish_date formData.finish_date today) = true →
      newsletterCreateRequest formData user today st = st) := by
  constructor
  · cases fd with
    | none => simp [clean_finish_date, exceptIsError]
    | some d =>
      by_cases h : d ≤ today
      · simp [clean_finish_date, h, exceptIsError]
      · simp [clean_finish_date, h, exceptIsError]
  · intro formData user st herr
    unfold newsletterCreateRequest
    cases hcl : clean_finish_date formData.finish_date today with
    | error e => rfl
    | ok v => rw [hcl] at herr; simp [exceptIsError] at herr

theorem C5_clean_finish_date_witness :
    newsletterCreateRequest
        ⟨1, 0, some 5, none, Frequency.daily, 'C', true, 1, [], []⟩ 1 10
        ⟨[], [], [], []⟩ =
      ⟨[], [], [], []⟩ :=
  (C5_clean_finish_date (some 5) 10).2
    ⟨1, 0, some 5, none, Frequency.daily, 'C', true, 1, [], []⟩ 1
    ⟨[], [], [], []⟩ (by decide)

/-- C6: ClientCreateForm email validation, with the creating user present,
errors exactly when that user already owns a Client with the same email, and
accepts the email when every Client with that email belongs to other users. -/
theorem C6_clean_email (u : Nat) (email : String) (db : List Client) :
    (exceptIsError (clean_email (some u) email db) = true ↔
       ∃ c ∈ db, c.created_by = u ∧ c.email = email) ∧
    ((∀ c ∈ db, c.created_by ≠ u) →
       clean_email (some u) email db = .ok email) := by
  constructor
  · by_cases h : db.any (fun c => c.created_by == u && c.email == email)
    · simp only [clean_email, h, if_true, exceptIsError, true_iff]
      rcases List.any_eq_true.mp h with ⟨c, hc, hcond⟩
      exact ⟨c, hc, by simpa using (Bool.and_eq_true _ _ |>.mp hcond)⟩
    · have hf : db.any (fun c => c.created_by == u && c.email == email) = false :=
        eq_false_of_ne_true h
      simp only [clean_email, hf, if_false, exceptIsError, false_iff, Bool.false_eq_true]
      rintro ⟨c, hc, h1, h2⟩
      exact h (List.any_eq_true.mpr ⟨c, hc, by simp [h1, h2]⟩)
  · intro hall
    have : db.any (fun c => c.created_by == u && c.email == email) = false := by
      rw [List.any_eq_false]
      intro c hc
      simp [hall c hc]
    simp [clean_email, this]

theorem C6_clean_email_witness :
    clean_email (some 1) "a@b.c" [⟨0, "a@b.c", "x", "y", 2⟩] = .ok "a@b.c" :=
  (C6_clean_email 1 "a@b.c" [⟨0, "a@b.c", "x", "y", 2⟩]).2 (by decide)

/-- C10: the Client update view passes no user into the form, so the
duplicate-email validation is skipped and any email is accepted, even one
equal to the email of another Client owned by the same user. -/
theorem C10_update_skips_email_check (email : String) (db : List Client) :
    clean_email clientUpdateViewFormUser email db = .ok email := by
  simp [clean_email, clientUpdateViewFormUser]

theorem sendAttempts_length (cs ms : List Nat) (transport : Nat → Nat → Bool) :
    (cs.flatMap (fun c => ms.map (fun m => transport c m))).length =
      cs.length * ms.length := by
  induction cs with
  | nil => simp
  | cons c rest ih => simp [ih, Nat.succ_mul, Nat.add_comm]

/-- C1: one invocation of send_mail_to_client appends exactly one
NewsletterLog row whatever the numbers of clients and messages; every
(client, message) pair is attempted, so one failure aborts no other send;
and the appended row records failure exactly when at least one individual
send failed. -/
theorem C1_send_mail_one_log (nl : Newsletter) (transport : Nat → Nat → Bool)
    (now : Nat) (logs : List NewsletterLog) :
    (send_mail_to_client nl transport now logs).length = logs.length + 1 ∧
    (sendAttempts nl transport).length = nl.clients.length * nl.messages.length ∧
    ∃ row : NewsletterLog,
      send_mail_to_client nl transport now logs = logs ++ [row] ∧
      row.newsletter = nl.id ∧
      (row.status = false ↔
        ∃ c ∈ nl.clients, ∃ m ∈ nl.messages, transport c m = false) := by
  refine ⟨by simp [send_mail_to_client], ?_, ?_⟩
  · exact sendAttempts_length nl.clients nl.messages transport
  · refine ⟨⟨now, (sendAttempts nl transport).all (fun b => b), nl.id⟩, rfl, rfl, ?_⟩
    simp only [← Bool.not_eq_true, List.all_eq_true]
    constructor
    · intro h
      push_neg at h
      rcases h with ⟨b, hb, hbne⟩
      rcases (by simpa [sendAttempts] using hb :
          ∃ c ∈ nl.clients, ∃ m ∈ nl.messages, transport c m = b) with ⟨c, hc, m, hm, hcm⟩
      exact ⟨c, hc, m, hm, by rw [hcm]; exact hbne⟩
    · rintro ⟨c, hc, m, hm, hcm⟩ hall
      have hbmem : (false : Bool) ∈ sendAttempts nl transport := by
        simp only [sendAttempts, List.mem_flatMap, List.mem_map]
        exact ⟨c, hc, m, hm, Bool.eq_false_iff.mpr hcm⟩
      simpa using hall false hbmem

/-- C2: the creation view first persists the newsletter with status `C`
while no job is yet registered, and at the end of the request, after
create_task, the persisted row carries status `S`. -/
theorem C2_create_status (formData : Newsletter) (user : Nat) (st : SystemState) :
    (newsletterCreateFormValid formData user st).firstSaved.status = 'C' ∧
    (newsletterCreateFormValid formData user st).afterFirstSave.jobs = st.jobs ∧
    getNewsletter (newsletterCreateFormValid formData user st).final.newsletters
        formData.id =
      some { formData with created_by := user, status := 'S' } :=
  ⟨rfl, rfl, getNewsletter_save _ _⟩

/-- C3: while a newsletter is inactive an edit request is rejected without
reaching form_valid or changing any state; while it is active a valid edit
reaches form_valid, leaves exactly one scheduler job under the newsletter's
key, and persists status `S`. -/
theorem C3_update_gate_and_reschedule (updated current : Newsletter)
    (st : SystemState)
    (hget : getNewsletter st.newsletters updated.id = some current) :
    (current.is_active = false → newsletterUpdateDispatch updated st = (false, st)) ∧
    (current.is_active = true →
      (newsletterUpdateDispatch updated st).1 = true ∧
      ((newsletterUpdateDispatch updated st).2.jobs).count updated.id = 1 ∧
      getNewsletter (newsletterUpdateDispatch updated st).2.newsletters updated.id =
        some { updated with status := 'S' }) := by
  constructor
  · intro hin
    simp [newsletterUpdateDispatch, hget, activeNewsletterGate, hin]
  · intro hact
    refine ⟨?_, ?_, ?_⟩
    · simp [newsletterUpdateDispatch, hget, activeNewsletterGate, hact]
    · simp only [newsletterUpdateDispatch, hget, activeNewsletterGate, hact, if_true]
      exact count_create_after_delete updated.id st.jobs
    · simp only [newsletterUpdateDispatch, hget, activeNewsletterGate, hact, if_true]
      exact getNewsletter_save _ _

theorem C3_update_gate_and_reschedule_witness :
    (newsletterUpdateDispatch
        ⟨1, 0, none, none, Frequency.daily, 'C', true, 1, [], []⟩
        ⟨[⟨1, 0, none, none, Frequency.daily, 'C', true, 1, [], []⟩], [], [], []⟩).1 =
      true :=
  ((C3_update_gate_and_reschedule
      ⟨1, 0, none, none, Frequency.daily, 'C', true, 1, [], []⟩
      ⟨1, 0, none, none, Frequency.daily, 'C', true, 1, [], []⟩
      ⟨[⟨1, 0, none, none, Frequency.daily, 'C', true, 1, [], []⟩], [], [], []⟩
      (by decide)).2 rfl).1

/-- C4: disabling an active newsletter keeps the row in the table with
`is_active` set to false and every other field unchanged, removes the
scheduler job under its key, and leaves the log table, the client table and
the stored status untouched. -/
theorem C4_delete_is_deactivation (pk : Nat) (nl : Newsletter) (st : SystemState)
    (hget : getNewsletter st.newsletters pk = some nl)
    (hact : nl.is_active = true) :
    getNewsletter (newsletterDeleteDispatch pk st).2.newsletters pk =
      some { nl with is_active := false } ∧
    pk ∉ (newsletterDeleteDispatch pk st).2.jobs ∧
    (newsletterDeleteDispatch pk st).2.logs = st.logs ∧
    (newsletterDeleteDispatch pk st).2.clients = st.clients ∧
    ({ nl with is_active := false }).status = nl.status := by
  have hid : nl.id = pk := getNewsletter_id hget
  refine ⟨?_, ?_, ?_, ?_, rfl⟩
  · simp only [newsletterDeleteDispatch, hget, activeNewsletterGate, hact, if_true,
      newsletterDeleteFormValid]
    rw [← hid]
    exact getNewsletter_save _ _
  · simp only [newsletterDeleteDispatch, hget, activeNewsletterGate, hact, if_true,
      newsletterDeleteFormValid]
    exact mem_delete_task pk st.jobs
  · simp [newsletterDeleteDispatch, hget, activeNewsletterGate, hact,
      newsletterDeleteFormValid]
  · simp [newsletterDeleteDispatch, hget, activeNewsletterGate, hact,
      newsletterDeleteFormValid]

theorem C4_delete_is_deactivation_witness :
    getNewsletter
        (newsletterDeleteDispatch 1
          ⟨[⟨1, 0, none, none, Frequency.daily, 'S', true, 1, [], []⟩], [], [], [1]⟩).2.newsletters
        1 =
      some ⟨1, 0, none, none, Frequency.daily, 'S', false, 1, [], []⟩ :=
  (C4_delete_is_deactivation 1
      ⟨1, 0, none, none, Frequency.daily, 'S', true, 1, [], []⟩
      ⟨[⟨1, 0, none, none, Frequency.daily, 'S', true, 1, [], []⟩], [], [], [1]⟩
      (by decide) rfl).1

/-- C7: the sendnewsletter command processes ids sequentially in the given
order, writes one success line per id sent, and stops with a CommandError
naming the first missing id; exactly one log row is appended per id
processed before the first missing one, and later ids add nothing. -/
theorem C7_cli_stops_at_first_missing (st : SystemState)
    (transport : Nat → Nat → Bool) (now : Nat) (logs : List NewsletterLog)
    (ids : List Nat) :
    (sendnewsletterHandle st transport now logs ids).1 =
      (ids.takeWhile (fun i => (getNewsletter st.newsletters i).isSome)).map successLine ∧
    (sendnewsletterHandle st transport now logs ids).2.2 =
      (ids.dropWhile (fun i => (getNewsletter st.newsletters i).isSome)).head?.map missingLine ∧
    (sendnewsletterHandle st transport now logs ids).2.1.length =
      logs.length +
        (ids.takeWhile (fun i => (getNewsletter st.newsletters i).isSome)).length := by
  induction ids generalizing logs with
  | nil => simp [sendnewsletterHandle]
  | cons i rest ih =>
    cases hget : getNewsletter st.newsletters i with
    | none =>
      simp [sendnewsletterHandle, hget, List.takeWhile_cons, List.dropWhile_cons]
    | some nl =>
      have hr := ih (send_mail_to_client nl transport now logs)
      simp only [sendnewsletterHandle, hget, List.takeWhile_cons, List.dropWhile_cons,
        Option.isSome_some, if_true, List.map_cons, List.length_cons]
      refine ⟨by rw [hr.1], by rw [hr.2.1], ?_⟩
      rw [hr.2.2]
      simp [send_mail_to_client]
      omega

/-- C8 as written is false: the main-page counters are not read through the
cache.  At this concrete input the cache holds 5 under the total-newsletter
key with time left before expiry, the database holds one newsletter, and the
cached service read returns 5 while the main page shows 1; after the data
changes to two newsletters the main page immediately shows 2. -/
theorem C8_counterexample :
    (get_total_newsletter true
        ⟨[⟨1, 0, none, none, Frequency.daily, 'S', true, 1, [], []⟩], [], [], []⟩
        [⟨total_newsletter_key, 5, 100⟩] 0).1 = 5 ∧
    (indexPageCounters
        ⟨[⟨1, 0, none, none, Frequency.daily, 'S', true, 1, [], []⟩], [], [], []⟩).1 = 1 ∧
    (indexPageCounters
        ⟨[⟨1, 0, none, none, Frequency.daily, 'S', true, 1, [], []⟩,
          ⟨2, 0, none, none, Frequency.daily, 'S', true, 1, [], []⟩], [], [], []⟩).1 = 2 ∧
    ¬ (indexPageCounters
        ⟨[⟨1, 0, none, none, Frequency.daily, 'S', true, 1, [], []⟩], [], [], []⟩).1 =
      (get_total_newsletter true
        ⟨[⟨1, 0, none, none, Frequency.daily, 'S', true, 1, [], []⟩], [], [], []⟩
        [⟨total_newsletter_key, 5, 100⟩] 0).1 := by
  refine ⟨rfl, rfl, rfl, ?_⟩
  decide

/-- C8 amended: the three caching-service counters behave as claimed — fixed
keys, TTLs 10, 120 and 180, a hit returns the cached value unchanged whatever
the current data, a miss recounts and writes, disabled caching always
recounts, and a value written at time t is readable exactly until t + TTL —
but the main page computes its three counters directly from the database and
does not use the caching service. -/
theorem C8_amended_counters (st st2 : SystemState) (cache : List CacheEntry)
    (now v : Nat) :
    (cacheGet cache total_newsletter_key now = some v →
      get_total_newsletter true st cache now = (v, cache) ∧
      (get_total_newsletter true st cache now).1 =
        (get_total_newsletter true st2 cache now).1) ∧
    (cacheGet cache total_newsletter_key now = none →
      get_total_newsletter true st cache now =
        (totalNewsletterCount st,
         cacheSet cache total_newsletter_key (totalNewsletterCount st) 10 now)) ∧
    get_total_newsletter false st cache now = (totalNewsletterCount st, cache) ∧
    (cacheGet cache active_newsletters_key now = some v →
      get_active_newsletters true st cache now = (v, cache)) ∧
    (cacheGet cache active_newsletters_key now = none →
      get_active_newsletters true st cache now =
        (activeNewsletterCount st,
         cacheSet cache active_newsletters_key (activeNewsletterCount st) 120 now)) ∧
    get_active_newsletters false st cache now = (activeNewsletterCount st, cache) ∧
    (cacheGet cache unique_clients_key now = some v →
      get_unique_clients true st cache now = (v, cache)) ∧
    (cacheGet cache unique_clients_key now = none →
      get_unique_clients true st cache now =
        (uniqueClientCount st,
         cacheSet cache unique_clients_key (uniqueClientCount st) 180 now)) ∧
    get_unique_clients false st cache now = (uniqueClientCount st, cache) ∧
    (∀ k w ttl t u, cacheGet (cacheSet cache k w ttl t) k u =
      if u < t + ttl then some w else none) ∧
    indexPageCounters st =
      (totalNewsletterCount st, activeNewsletterCount st, uniqueClientCount st) := by
  refine ⟨?_, ?_, ?_, ?_, ?_, ?_, ?_, ?_, ?_, ?_, rfl⟩
  · intro h
    exact ⟨by simp [get_total_newsletter, h], by simp [get_total_newsletter, h]⟩
  · intro h
    simp [get_total_newsletter, h]
  · rfl
  · intro h
    simp [get_active_newsletters, h]
  · intro h
    simp [get_active_newsletters, h]
  · rfl
  · intro h
    simp [get_unique_clients, h]
  · intro h
    simp [get_unique_clients, h]
  · rfl
  · intro k w ttl t u
    simp [cacheGet, cacheSet]

theorem C8_amended_counters_witness :
    get_total_newsletter true ⟨[], [], [], []⟩ [⟨total_newsletter_key, 5, 100⟩] 0 =
      (5, [⟨total_newsletter_key, 5, 100⟩]) :=
  ((C8_amended_counters ⟨[], [], [], []⟩ ⟨[], [], [], []⟩
      [⟨total_newsletter_key, 5, 100⟩] 0 5).1 (by decide)).1

/-- C9: the owner-or-staff mixin lets the wrapped operation run exactly when
the requesting user is the object's creator, staff or a superuser, and the
log mixin lets it run exactly when the user created the log's parent
newsletter, is staff or a superuser; every failing request is answered with
a redirect and the wrapped operation never runs. -/
theorem C9_access_mixins (u : User) (objCreator : Nat) (log : NewsletterLog)
    (db : List Newsletter) (nl : Newsletter)
    (hget : getNewsletter db log.newsletter = some nl) :
    (combinedDispatch u objCreator = .proceed ↔
      (objCreator = u.id ∨ u.is_staff = true ∨ u.is_superuser = true)) ∧
    (combinedDispatch u objCreator ≠ .proceed →
      combinedDispatch u objCreator = .redirectHome) ∧
    (newsletterLogDispatch u log db = .proceed ↔
      (nl.created_by = u.id ∨ u.is_staff = true ∨ u.is_superuser = true)) ∧
    (newsletterLogDispatch u log db ≠ .proceed →
      newsletterLogDispatch u log db = .redirectHome) := by
  have hlog : newsletterLogDispatch u log db =
      if nl.created_by != u.id && !u.is_staff && !u.is_superuser then
        .redirectHome
      else .proceed := by
    simp [newsletterLogDispatch, hget]
  have hcd : combinedDispatch u objCreator = .proceed ↔
      check_access u objCreator = true := by
    unfold combinedDispatch
    by_cases h : check_access u objCreator = true
    · simp [h]
    · simp [h]
  have hca : check_access u objCreator = true ↔
      (objCreator = u.id ∨ u.is_staff = true ∨ u.is_superuser = true) := by
    simp [check_access, or_assoc]
  have hld : newsletterLogDispatch u log db = .proceed ↔
      (nl.created_by != u.id && !u.is_staff && !u.is_superuser) = false := by
    rw [hlog]
    by_cases h : (nl.created_by != u.id && !u.is_staff && !u.is_superuser) = true
    · simp [h]
    · simp [eq_false_of_ne_true h]
  have hcond : (nl.created_by != u.id && !u.is_staff && !u.is_superuser) = false ↔
      (nl.created_by = u.id ∨ u.is_staff = true ∨ u.is_superuser = true) := by
    by_cases he : nl.created_by = u.id <;>
      cases hs : u.is_staff <;> cases hsu : u.is_superuser <;> simp [he, hs, hsu]
  refine ⟨hcd.trans hca, ?_, hld.trans hcond, ?_⟩
  · intro hne
    by_cases h : check_access u objCreator = true
    · exact absurd (hcd.mpr h) hne
    · simp [combinedDispatch, h]
  · intro hne
    by_cases h : (nl.created_by != u.id && !u.is_staff && !u.is_superuser) = true
    · rw [hlog]
      simp [h]
    · exact absurd (hld.mpr (eq_false_of_ne_true h)) hne

theorem C9_access_mixins_witness :
    combinedDispatch ⟨1, false, false⟩ 1 = DispatchOutcome.proceed :=
  (C9_access_mixins ⟨1, false, false⟩ 1 ⟨0, true, 7⟩
      [⟨7, 0, none, none, Frequency.daily, 'S', true, 1, [], []⟩]
      ⟨7, 0, none, none, Frequency.daily, 'S', true, 1, [], []⟩
      (by decide)).1.mpr (Or.inl rfl)

end SkyChimp
